import Mathlib

/-!
Shallow embedding of the synthetic-password unwrap engine of
src/Decrypt.cpp (TWRP recovery decryption of Android file-based
encryption), together with theorems settling the specification claims.

External collaborators (OpenSSL SHA-512 / HMAC / AES-GCM, scrypt, the
weaver, gatekeeper, keystore, authorization and CE-storage services, and
the on-disk file system) are modelled as fields of an environment
record `Env`; the repository functions are translated from the source as
functions of that environment.  Each run additionally returns the list
of calls made to the external collaborators (`Ev`), so that claims of
the form "service X is never contacted" are statable.
-/

/-- Byte strings are lists of naturals (each byte a value below 256). -/
abbrev Bytes := List Nat

/-- State of a file as the engine's reads can observe it:
absent (stat fails), existing but unreadable, or readable content. -/
inductive FileSt
| absent
| unreadable
| content (bs : Bytes)
deriving DecidableEq

/-- Result of the keystore getKeyEntry call (ks2 service):
ok, KEY_NOT_FOUND, or any other failure. -/
inductive KsGetKey
| ok
| keyNotFound
| otherError
deriving DecidableEq

/-- Response of the AIDL gatekeeper verify call. -/
structure AidlGkResp where
  statusCode : Int
  timeoutMs : Int
  hardwareAuthToken : Bytes
deriving DecidableEq

/-- Response of the HIDL gatekeeper verify callback. -/
structure HidlGkResp where
  code : Int
  timeout : Int
  data : Bytes
deriving DecidableEq

/-- Calls to external collaborators, recorded in order. -/
inductive Ev
| fileRead (path : String)
| copyDb
| weaverGetKeySize
| weaverVerify (slot : Int) (key : Bytes)
| gkVerifyAidl (uid : Nat) (handle : Bytes) (token : Bytes)
| gkVerifyHidl (uid : Nat) (handle : Bytes) (token : Bytes)
| addAuthToken (payload : Bytes)
| ksGetKeyEntry (keyAlias : String)
| ksBegin (iv : Bytes)
| ksFinish (ct : Bytes)
| ceUnlock (uid : Nat) (secret : String)
| cePrepare (uid : Nat)
deriving DecidableEq

/-- Keystore operations of the outer unwrap (getKeyEntry / createOperation /
finish), as used for the claim that no keystore operation is begun. -/
def Ev.isKeystore : Ev → Bool
| .ksGetKeyEntry _ => true
| .ksBegin _ => true
| .ksFinish _ => true
| _ => false

/-- Weaver verify calls. -/
def Ev.isWeaverVerify : Ev → Bool
| .weaverVerify _ _ => true
| _ => false

/-- CE-storage unlock calls (the FBE secret being handed on). -/
def Ev.isCeUnlock : Ev → Bool
| .ceUnlock _ _ => true
| _ => false

/-- Environment: the file system, the cryptographic primitives the source
calls through OpenSSL/scrypt, the hardware services, and the initial
(unspecified) contents of the stack buffer holding the password token. -/
structure Env where
  fs : String → FileSt
  dirStat : String → Bool
  sha512 : Bytes → Bytes
  hmacSha256 : Bytes → Bytes → Bytes
  scrypt : Bytes → Bytes → Nat → Nat → Nat → Option Bytes
  stackResidue : Bytes
  weaverAvailable : Bool
  weaverKeySize : Option Nat
  weaverVerify : Int → Bytes → Option Bytes
  aidlGkDeclared : Bool
  aidlGkVerify : Nat → Bytes → Bytes → AidlGkResp
  hidlGkAvailable : Bool
  hidlGkVerify : Nat → Bytes → Bytes → Option HidlGkResp
  ksGetKey : String → KsGetKey
  ksBeginOk : Bool
  ksFinish : Bytes → Option Bytes
  gcmDecrypt : Bytes → Bytes → Bytes → Bytes
  gcmTagOk : Bytes → Bytes → Bytes → Bool
  ceUnlock : Nat → String → Bool
  cePrepare : Nat → Bool
  handleOf : Nat → String
  aliasOf : String → String

/-- Bytes of an (ASCII) string, as the source reinterprets string data. -/
def strBytes (s : String) : Bytes := s.data.map Char.toNat

/-- Big-endian signed 32-bit integer from four bytes, as produced by the
source reading a host-endian int and then calling endianswap on a
little-endian host. -/
def beInt32 (b0 b1 b2 b3 : Nat) : Int :=
  let u : Nat := (b0 % 256) * 16777216 + (b1 % 256) * 65536 + (b2 % 256) * 256 + b3 % 256
  if u < 2147483648 then (u : Int) else (u : Int) - 4294967296

/-- Little-endian (host-endian on the little-endian hosts the source runs
on) signed 32-bit integer from four bytes. -/
def leInt32 (b0 b1 b2 b3 : Nat) : Int :=
  let u : Nat := (b3 % 256) * 16777216 + (b2 % 256) * 65536 + (b1 % 256) * 256 + b0 % 256
  if u < 2147483648 then (u : Int) else (u : Int) - 4294967296

/-- Hex digit characters, upper case, as sprintf %02X produces. -/
def hexDigit (n : Nat) : Char :=
  (['0', '1', '2', '3', '4', '5', '6', '7', '8', '9',
    'A', 'B', 'C', 'D', 'E', 'F']).getD n '0'

/-- Two hex characters of one byte. -/
def hexByte (b : Nat) : List Char := [hexDigit (b / 16 % 16), hexDigit (b % 16)]

/-- Hex encoding of a byte string. -/
def hexStr (bs : Bytes) : String := ⟨(bs.map hexByte).flatten⟩

/-- A std::string holding raw bytes, modelled as the string of their
code points. -/
def rawStr (bs : Bytes) : String := ⟨bs.map Char.ofNat⟩

/-- memcpy of src over dest starting at offset off. -/
def memcpyAt (dest : Bytes) (off : Nat) (src : Bytes) : Bytes :=
  dest.take off ++ src ++ dest.drop (off + src.length)

/-- PASSWORD_TOKEN_SIZE of src/Decrypt.cpp. -/
def PASSWORD_TOKEN_SIZE : Nat := 32

/-- SHA512_DIGEST_LENGTH (OpenSSL). -/
def SHA512_DIGEST_LENGTH : Nat := 64

/-- Modelled from the spec: the personalization labels of §4.3; the
macros live in HashPassword.h, which is not among the provided sources. -/
def PERSONALISATION_APPLICATION_ID : String := "application-id"

/-- Modelled from the spec: label for the FBE key hash. -/
def PERSONALIZATION_FBE_KEY : String := "fbe-key"

/-- Modelled from the spec: SP800 context for the v3 FBE key. -/
def PERSONALISATION_CONTEXT : String := "fbe-key-context"

/-- Modelled from the spec: label for the weaver key. -/
def PERSONALISATION_WEAVER_KEY : String := "weaver-key"

/-- Modelled from the spec: label for the weaver payload secret. -/
def PERSONALISATION_WEAVER_PASSWORD : String := "weaver-pwd"

/-- Modelled from the spec: label for the secdiscardable transform. -/
def PERSONALISATION_SECDISCARDABLE : String := "secdiscardable-transform"

/-- Modelled from the spec: label for the gatekeeper password token. -/
def PERSONALIZATION_USER_GK_AUTH : String := "user-gk-authentication"

/-- AIDL IGatekeeper STATUS_OK. -/
def AIDL_STATUS_OK : Int := 0

/-- AIDL IGatekeeper ERROR_RETRY_TIMEOUT. -/
def AIDL_ERROR_RETRY_TIMEOUT : Int := -2

/-- Modelled from the spec: pad_128 right-pads the UTF-8 label with NUL
bytes to exactly 128 bytes (§4.3); defined in the absent HashPassword.cpp. -/
def pad128 (label : String) : Bytes :=
  strBytes label ++ List.replicate (128 - (strBytes label).length) 0

/-- Modelled from the spec: PersonalizedHashBinary(label, data) =
SHA-512(pad_128(label) || data), 64 bytes (§4.3); defined in the absent
HashPassword.cpp. -/
def PersonalizedHashBinary (e : Env) (label : String) (data : Bytes) : Bytes :=
  e.sha512 (pad128 label ++ data)

/-- Modelled from the spec: PersonalizedHash is the hex-encoded string
form of PersonalizedHashBinary (§4.7 step 8); defined in the absent
HashPassword.cpp. -/
def PersonalizedHash (e : Env) (label : String) (data : Bytes) : String :=
  hexStr (PersonalizedHashBinary e label data)

/-- Modelled from the spec: the fixed input of the SP 800-108 counter-mode
KDF — a counter, the label, a NUL separator, the context and the output
length (§4.3); defined in the absent HashPassword.cpp. -/
def sp800FixedInput (label ctx : String) : Bytes :=
  [0, 0, 0, 1] ++ strBytes label ++ [0] ++ strBytes ctx ++ [0, 0, 1, 0]

/-- Modelled from the spec: PersonalizedHashSP800(label, context, data) is
an SP 800-108 counter-mode KDF with HMAC-SHA-256 keyed by data, producing
32 bytes (§4.3); defined in the absent HashPassword.cpp. -/
def PersonalizedHashSP800 (e : Env) (label ctx : String) (data : Bytes) : String :=
  rawStr ((e.hmacSha256 data (sp800FixedInput label ctx)).take 32)

/-- Modelled from the spec: HashPassword pads "Android FBE credential
hash" with NUL to 128 bytes, appends the password and hex-encodes the
SHA-512 (comment at src/Decrypt.cpp:1072); defined in the absent
HashPassword.cpp. -/
def HashPassword (e : Env) (password : String) : String :=
  hexStr (e.sha512 (pad128 "Android FBE credential hash" ++ strBytes password))

/-- src/Decrypt.cpp:290 Get_Spblob_Data: read handle+suffix if it exists;
if it does not exist, try the 0- and 00-padded variants in order.  A file
that exists but cannot be read aborts without trying the variants. -/
def Get_Spblob_Data (fs : String → FileSt) (spblobPath handleStr suffix : String) :
    Option Bytes × List Ev :=
  let file := spblobPath ++ handleStr ++ suffix
  match fs file with
  | .content d => (some d, [.fileRead file])
  | .unreadable => (none, [.fileRead file])
  | .absent =>
    let f1 := spblobPath ++ "0" ++ handleStr ++ suffix
    let f2 := spblobPath ++ "00" ++ handleStr ++ suffix
    match fs f1 with
    | .content d => (some d, [.fileRead f1])
    | _ =>
      match fs f2 with
      | .content d => (some d, [.fileRead f1, .fileRead f2])
      | _ => (none, [.fileRead f1, .fileRead f2])

/-- password_data_struct of src/Decrypt.cpp:279. -/
structure PwdData where
  passwordType : Int
  scryptN : Nat
  scryptR : Nat
  scryptP : Nat
  saltLen : Int
  salt : Bytes
  handleLen : Int
  passwordHandle : Bytes
deriving DecidableEq

/-- The zero/NULL initialization of the pwd struct at the top of
Decrypt_User_Synth_Pass (src/Decrypt.cpp:692); the scrypt fields are
uninitialized there and set to 0 here, the default-password path never
reads them. -/
def pwdInit : PwdData := ⟨0, 0, 0, 0, 0, [], 0, []⟩

/-- src/Decrypt.cpp:318 Get_Password_Data: big-endian password_type,
three scrypt exponent bytes, big-endian salt_len and salt, big-endian
handle_len and handle.  salt_len = 0 is an error; handle_len = 0 is not. -/
def Get_Password_Data (fs : String → FileSt) (spblobPath handleStr : String) :
    Option PwdData × List Ev :=
  match Get_Spblob_Data fs spblobPath handleStr ".pwd" with
  | (none, tr) => (none, tr)
  | (some d, tr) =>
    let passwordType := beInt32 (d.getD 0 0) (d.getD 1 0) (d.getD 2 0) (d.getD 3 0)
    let n := d.getD 4 0
    let r := d.getD 5 0
    let p := d.getD 6 0
    let saltLen := beInt32 (d.getD 7 0) (d.getD 8 0) (d.getD 9 0) (d.getD 10 0)
    if saltLen = 0 then (none, tr)
    else
      let salt := (d.drop 11).take saltLen.toNat
      let hoff := 11 + saltLen.toNat
      let handleLen := beInt32 (d.getD hoff 0) (d.getD (hoff + 1) 0)
        (d.getD (hoff + 2) 0) (d.getD (hoff + 3) 0)
      let handle := if handleLen ≠ 0 then (d.drop (hoff + 4)).take handleLen.toNat else []
      (some ⟨passwordType, n, r, p, saltLen, salt, handleLen, handle⟩, tr)

/-- src/Decrypt.cpp:372 Get_Password_Token: scrypt of the credential with
N = 1 << scryptN etc. (32-bit shift, hence mod 2^32) to 32 bytes. -/
def Get_Password_Token (e : Env) (pwd : PwdData) (password : String) : Option Bytes :=
  e.scrypt (strBytes password) pwd.salt
    (2 ^ pwd.scryptN % 4294967296) (2 ^ pwd.scryptR % 4294967296)
    (2 ^ pwd.scryptP % 4294967296)

/-- weaver_data_struct of src/Decrypt.cpp:393. -/
structure WeaverData where
  version : Nat
  slot : Int
deriving DecidableEq

/-- src/Decrypt.cpp:402 Get_Weaver_Data: reads exactly
spblob_path + handle + ".weaver" (no zero-padded variants); version is
byte 0; the slot pointer is computed as (const int*)data + sizeof(unsigned
char), i.e. int-typed pointer arithmetic that advances by one int, so the
slot is the host-endian int at byte offsets 4..7. -/
def Get_Weaver_Data (fs : String → FileSt) (spblobPath handleStr : String) :
    Option WeaverData × List Ev :=
  let weaverFile := spblobPath ++ handleStr ++ ".weaver"
  match fs weaverFile with
  | .content d =>
    (some ⟨d.getD 0 0, leInt32 (d.getD 4 0) (d.getD 5 0) (d.getD 6 0) (d.getD 7 0)⟩,
     [.fileRead weaverFile])
  | _ => (none, [.fileRead weaverFile])

/-- src/Decrypt.cpp:639 Get_Secdis. -/
def Get_Secdis (fs : String → FileSt) (spblobPath handleStr : String) :
    Option Bytes × List Ev :=
  Get_Spblob_Data fs spblobPath handleStr ".secdis"

/-- src/Decrypt.cpp:645 fakeUid. -/
def fakeUid (uid : Nat) : Nat := 100000 + uid

/-- src/Decrypt.cpp:649 Is_Weaver: stat of the exact (unpadded) .weaver
path. -/
def Is_Weaver (fs : String → FileSt) (spblobPath handleStr : String) : Bool :=
  match fs (spblobPath ++ handleStr ++ ".weaver") with
  | .absent => false
  | _ => true

/-- Error exits of unwrapSyntheticPasswordBlob (src/Decrypt.cpp:487);
the source signals all of them by returning an empty string, each exit
distinguished by its printf. -/
inductive UnwrapErr
| spblobMissing
| unsupportedVersion
| notPasswordBased
| legacyVersion
| keyNotFound
| getKeyFailed
| beginFailed
| finishFailed
deriving DecidableEq

/-- The error exits caused by an invalid spblob version or type byte
(the spec's BlobCorrupt class): the unsupported-version exit at line 501,
the non-PASSWORD_BASED exit at line 507, and the silent fall-through for
the legacy v1 version at line 632. -/
def UnwrapErr.isBlobCorrupt : UnwrapErr → Bool
| unsupportedVersion => true
| notPasswordBased => true
| legacyVersion => true
| _ => false

/-- src/Decrypt.cpp:487 unwrapSyntheticPasswordBlob.  Reads the .spblob
(with zero-padded variants), checks version byte ∈ {1,2,3} and type byte
= 0, and for v2/v3: iv = bytes 2..13, ciphertext = bytes 14.., outer
decrypt through the keystore (getKeyEntry / createOperation / finish),
inner OpenSSL AES-GCM decrypt keyed by the first 32 bytes of
PersonalizedHashBinary("application-id", application_id).  The source
never extracts the GCM tag from the ciphertext (it passes an
uninitialized tag buffer to EVP_CTRL_GCM_SET_TAG) and discards the
return value of EVP_DecryptFinal_ex, so the authentication result
(gcmTagOk) is computed and ignored, exactly as here.  Version 1 passes
the first check and falls through to the empty return at line 632. -/
def unwrapSyntheticPasswordBlob (e : Env) (spblobPath handleStr : String) (userId : Nat)
    (applicationId : Bytes) : Except UnwrapErr String × List Ev :=
  match Get_Spblob_Data e.fs spblobPath handleStr ".spblob" with
  | (none, tr) => (.error .spblobMissing, tr)
  | (some spblob, tr) =>
    let b0 := spblob.getD 0 0
    if b0 ≠ 2 ∧ b0 ≠ 1 ∧ b0 ≠ 3 then (.error .unsupportedVersion, tr)
    else
      let b1 := spblob.getD 1 0
      if b1 ≠ 0 then (.error .notPasswordBased, tr)
      else if b0 = 2 ∨ b0 = 3 then
        let iv := (spblob.drop 2).take 12
        let handle := e.handleOf userId
        let keystoreAlias := e.aliasOf handle
        let cipherText := spblob.drop 14
        let tr := tr ++ [.ksGetKeyEntry keystoreAlias]
        match e.ksGetKey keystoreAlias with
        | .keyNotFound => (.error .keyNotFound, tr)
        | .otherError => (.error .getKeyFailed, tr)
        | .ok =>
          let tr := tr ++ [.ksBegin iv]
          if !e.ksBeginOk then (.error .beginFailed, tr)
          else
            let tr := tr ++ [.ksFinish cipherText]
            match e.ksFinish cipherText with
            | none => (.error .finishFailed, tr)
            | some keystoreResult =>
              let intermediateIv := keystoreResult.take 12
              let intermediateCipherText := keystoreResult.drop 12
              let personalizedApplicationId :=
                PersonalizedHashBinary e PERSONALISATION_APPLICATION_ID applicationId
              let key := personalizedApplicationId.take 32
              let secretKeyFull := e.gcmDecrypt key intermediateIv intermediateCipherText
              let _tagOk := e.gcmTagOk key intermediateIv intermediateCipherText
              let secretKeyRealSize := secretKeyFull.length - 16
              let secretKey := secretKeyFull.take secretKeyRealSize
              if b0 = 3 then
                (.ok (PersonalizedHashSP800 e PERSONALIZATION_FBE_KEY
                  PERSONALISATION_CONTEXT secretKey), tr)
              else
                (.ok (PersonalizedHash e PERSONALIZATION_FBE_KEY secretKey), tr)
      else (.error .legacyVersion, tr)

/-- src/Decrypt.cpp:669 Decrypt_CE_storage: fscrypt_unlock_ce_storage then
fscrypt_prepare_user_storage. -/
def Decrypt_CE_storage (e : Env) (userId : Nat) (secret : String) (tr : List Ev) :
    Bool × List Ev :=
  let tr := tr ++ [.ceUnlock userId secret]
  if !e.ceUnlock userId secret then (false, tr)
  else
    let tr := tr ++ [.cePrepare userId]
    if !e.cePrepare userId then (false, tr)
    else (true, tr)

/-- The uninitialized 32-byte password_token stack buffer after the
memcpy of the 16 literal bytes "default-password"
(src/Decrypt.cpp:712,723-727); the tail keeps the buffer's prior
(unspecified) contents. -/
def defaultPasswordToken (residue : Bytes) : Bytes :=
  memcpyAt residue 0 (strBytes "default-password")

/-- Password-token step of Decrypt_User_Synth_Pass
(src/Decrypt.cpp:712-727): scrypt of the credential with the .pwd
parameters, or, for the default credential "!", the early persistent-DB
copy followed by the literal default-password bytes over the
uninitialized buffer. -/
def tokenStep (e : Env) (spblobPath handleStr password : String) :
    Option (Bytes × PwdData) × List Ev :=
  if password ≠ "!" then
    match Get_Password_Data e.fs spblobPath handleStr with
    | (none, tr) => (none, tr)
    | (some pwd, tr) =>
      match Get_Password_Token e pwd password with
      | none => (none, tr)
      | some token => (some (token, pwd), tr)
  else
    (some (defaultPasswordToken e.stackResidue, pwdInit), [.copyDb])

/-- Tail of Decrypt_User_Synth_Pass (src/Decrypt.cpp:920-932): the
unwrap call, the empty-secret check, and the CE-storage unlock. -/
def finishUnwrap (e : Env) (spblobPath handleStr : String) (userId : Nat)
    (applicationId : Bytes) (tr : List Ev) : Bool × List Ev :=
  match unwrapSyntheticPasswordBlob e spblobPath handleStr userId applicationId with
  | (.error _, tu) => (false, tr ++ tu)
  | (.ok secret, tu) =>
    let tr := tr ++ tu
    if secret.length = 0 then (false, tr)
    else Decrypt_CE_storage e userId secret tr

/-- Gatekeeper step of the secdis path (src/Decrypt.cpp:796-915).  With
the AIDL service: a retry or error status returns immediately; an OK
status continues.  With the HIDL service: only a transport failure
returns; an error or retry response merely skips the auth-token
installation and the flow continues to the keystore unwrap. -/
def gatekeeperStep (e : Env) (userId : Nat) (passwordToken : Bytes) (pwd : PwdData)
    (spblobPath handleStr : String) (applicationId : Bytes) (tr : List Ev) :
    Bool × List Ev :=
  if e.aidlGkDeclared then
    if pwd.handleLen ≤ 0 then (false, tr)
    else
      let gkPwdToken := PersonalizedHashBinary e PERSONALIZATION_USER_GK_AUTH
        (passwordToken.take PASSWORD_TOKEN_SIZE)
      let tok := gkPwdToken.take SHA512_DIGEST_LENGTH
      let tr := tr ++ [.gkVerifyAidl (fakeUid userId) pwd.passwordHandle tok]
      let rsp := e.aidlGkVerify (fakeUid userId) pwd.passwordHandle tok
      if rsp.statusCode ≥ AIDL_STATUS_OK then
        let payload := rsp.hardwareAuthToken
        let tr := if payload.length ≠ 0 then tr ++ [.addAuthToken payload] else tr
        finishUnwrap e spblobPath handleStr userId applicationId tr
      else if rsp.statusCode = AIDL_ERROR_RETRY_TIMEOUT then (false, tr)
      else (false, tr)
  else if e.hidlGkAvailable then
    if pwd.handleLen ≤ 0 then (false, tr)
    else
      let gkPwdToken := PersonalizedHashBinary e PERSONALIZATION_USER_GK_AUTH
        (passwordToken.take PASSWORD_TOKEN_SIZE)
      let tok := gkPwdToken.take SHA512_DIGEST_LENGTH
      let tr := tr ++ [.gkVerifyHidl (fakeUid userId) pwd.passwordHandle tok]
      match e.hidlGkVerify (fakeUid userId) pwd.passwordHandle tok with
      | none => (false, tr)
      | some rsp =>
        if rsp.code ≥ 0 then
          let payload := rsp.data
          let tr := if payload.length ≠ 0 then tr ++ [.addAuthToken payload] else tr
          finishUnwrap e spblobPath handleStr userId applicationId tr
        else
          finishUnwrap e spblobPath handleStr userId applicationId tr
  else (false, tr)

/-- The spblob directory path of a user as sprintf builds it
(src/Decrypt.cpp:701). -/
def spblobPathOf (userId : Nat) : String :=
  "/data/system_de/" ++ toString userId ++ "/spblob/"

/-- src/Decrypt.cpp:687 Decrypt_User_Synth_Pass: derive the password
token, branch on the presence of the .weaver file, build the application
id on the weaver path (Get_Weaver_Data, weaver GetKeySize — fetched but
never compared to the key length — then WeaverVerify) or the secdis path
(Get_Secdis plus the gatekeeper step for non-default credentials), then
unwrap the spblob and unlock CE storage. -/
def Decrypt_User_Synth_Pass (e : Env) (userId : Nat) (password : String) :
    Bool × List Ev :=
  let spblobPath := spblobPathOf userId
  let handleStr := e.handleOf userId
  match tokenStep e spblobPath handleStr password with
  | (none, tr) => (false, tr)
  | (some (passwordToken, pwd), tr) =>
    if Is_Weaver e.fs spblobPath handleStr then
      match Get_Weaver_Data e.fs spblobPath handleStr with
      | (none, tw) => (false, tr ++ tw)
      | (some wd, tw) =>
        let tr := tr ++ tw
        let weaverKey := PersonalizedHashBinary e PERSONALISATION_WEAVER_KEY
          (passwordToken.take PASSWORD_TOKEN_SIZE)
        if !e.weaverAvailable then (false, tr)
        else
          let tr := tr ++ [.weaverGetKeySize]
          match e.weaverKeySize with
          | none => (false, tr)
          | some _weaverKeySize =>
            let tr := tr ++ [.weaverVerify wd.slot weaverKey]
            match e.weaverVerify wd.slot weaverKey with
            | none => (false, tr)
            | some weaverPayload =>
              let weaverSecret := PersonalizedHashBinary e
                PERSONALISATION_WEAVER_PASSWORD weaverPayload
              let applicationId := passwordToken.take PASSWORD_TOKEN_SIZE ++
                weaverSecret.take SHA512_DIGEST_LENGTH
              finishUnwrap e spblobPath handleStr userId applicationId tr
    else
      match Get_Secdis e.fs spblobPath handleStr with
      | (none, ts) => (false, tr ++ ts)
      | (some secdisData, ts) =>
        let tr := tr ++ ts
        let secdiscardable := PersonalizedHashBinary e
          PERSONALISATION_SECDISCARDABLE secdisData
        let applicationId := passwordToken.take PASSWORD_TOKEN_SIZE ++
          secdiscardable.take SHA512_DIGEST_LENGTH
        if password ≠ "!" then
          gatekeeperStep e userId passwordToken pwd spblobPath handleStr applicationId tr
        else
          finishUnwrap e spblobPath handleStr userId applicationId tr

/-- True when stat succeeds and the size is positive; sizes are only
observable for readable contents in this model. -/
def statNonEmpty (fs : String → FileSt) (p : String) : Bool :=
  match fs p with
  | .content bs => bs.length > 0
  | _ => false

/-- src/Decrypt.cpp:935 Get_Password_Type: with the target user's spblob
directory present, map the .pwd password_type (2 and 4 to password, 1 to
pattern, 3 to PIN, anything else to the default 0); otherwise probe the
legacy gatekeeper key files, also setting the filename out-parameter. -/
def Get_Password_Type (e : Env) (userId : Nat) : Int × String :=
  if e.dirStat (spblobPathOf userId) then
    let handleStr := e.handleOf userId
    match (Get_Password_Data e.fs (spblobPathOf userId) handleStr).1 with
    | none => (0, "")
    | some pwd =>
      if pwd.passwordType = 2 then (1, "")
      else if pwd.passwordType = 4 then (1, "")
      else if pwd.passwordType = 1 then (2, "")
      else if pwd.passwordType = 3 then (3, "")
      else (0, "")
  else
    let path := if userId = 0 then "/data/system/"
      else "/data/system/users/" ++ toString userId ++ "/"
    let f1 := path ++ "gatekeeper.password.key"
    if statNonEmpty e.fs f1 then (1, f1)
    else
      let f2 := path ++ "gatekeeper.pattern.key"
      if statNonEmpty e.fs f2 then (2, f2)
      else (0, "")

/-- Which branch of Decrypt_User a run takes: the early false returns,
the default-password branch, the synthetic-password method, or the
legacy gatekeeper key-file flow. -/
inductive DecryptFlow
| rejected
| defaultFlow
| synth
| legacy
deriving DecidableEq

/-- src/Decrypt.cpp:989 Decrypt_User: reject user ids above 9999; reject
an unknown password type unless the credential is "!"; for "!" try the CE
unlock directly and fall back to the synthetic-password path; otherwise
use the synthetic-password method exactly when /data/system_de/0/spblob
(the user-0 directory, whatever the target user) exists, and the legacy
gatekeeper key-file flow when it does not.  The legacy flow's gatekeeper
result is only used through its auth token hex buffer, which the source
then never reads; the CE secret is HashPassword of the credential. -/
def Decrypt_User (e : Env) (userId : Nat) (password : String) :
    Bool × DecryptFlow × List Ev :=
  if userId > 9999 then (false, .rejected, [])
  else
    let pt := Get_Password_Type e userId
    let defaultPassword := password = "!"
    if pt.1 = 0 ∧ ¬defaultPassword then (false, .rejected, [])
    else if defaultPassword then
      match Decrypt_CE_storage e userId "!" [] with
      | (true, tr) => (true, .defaultFlow, tr)
      | (false, tr) =>
        let r := Decrypt_User_Synth_Pass e userId password
        (r.1, .defaultFlow, tr ++ r.2)
    else if e.dirStat "/data/system_de/0/spblob" then
      let r := Decrypt_User_Synth_Pass e userId password
      (r.1, .synth, r.2)
    else
      match e.fs pt.2 with
      | .absent => (false, .legacy, [])
      | .unreadable => (false, .legacy, [.fileRead pt.2])
      | .content handleBytes =>
        let tr := [.fileRead pt.2]
        if !e.hidlGkAvailable then (false, .legacy, tr)
        else
          let tr := tr ++ [.gkVerifyHidl userId handleBytes (strBytes password)]
          match e.hidlGkVerify userId handleBytes (strBytes password) with
          | none => (false, .legacy, tr)
          | some _rsp =>
            let secret := HashPassword e password
            let r := Decrypt_CE_storage e userId secret tr
            (r.1, .legacy, r.2)

/-- Appending strings appends their character data. -/
theorem string_data_append (a b : String) : (a ++ b).data = a.data ++ b.data := rfl

/-- Strings with equal character data are equal. -/
theorem string_data_inj {a b : String} (h : a.data = b.data) : a = b := by
  cases a; cases b; exact congrArg String.mk h

/-- Left cancellation for string append, contrapositive form. -/
theorem string_append_right_ne (x : String) {s t : String} (h : s ≠ t) :
    x ++ s ≠ x ++ t := by
  intro he
  apply h
  have hd := congrArg String.data he
  rw [string_data_append, string_data_append] at hd
  exact string_data_inj (List.append_cancel_left hd)

/-- Strings of different lengths differ. -/
theorem string_ne_of_length {a b : String} (h : a.length ≠ b.length) : a ≠ b :=
  fun he => h (by rw [he])

theorem len_dot_pwd : (".pwd" : String).length = 4 := rfl

theorem len_dot_spblob : (".spblob" : String).length = 7 := rfl

theorem len_dot_weaver : (".weaver" : String).length = 7 := rfl

theorem len_dot_secdis : (".secdis" : String).length = 7 := rfl

theorem len_zero_str : ("0" : String).length = 1 := rfl

theorem len_zerozero_str : ("00" : String).length = 2 := rfl

/-- A base environment for concrete runs: empty file system, dummy (but
length-correct) primitives, succeeding keystore and CE services. -/
def env0 : Env where
  fs := fun _ => .absent
  dirStat := fun _ => false
  sha512 := fun _ => List.replicate 64 9
  hmacSha256 := fun _ _ => List.replicate 32 7
  scrypt := fun _ _ _ _ _ => some (List.replicate 32 1)
  stackResidue := List.replicate 32 0
  weaverAvailable := false
  weaverKeySize := none
  weaverVerify := fun _ _ => none
  aidlGkDeclared := false
  aidlGkVerify := fun _ _ _ => ⟨-1, 0, []⟩
  hidlGkAvailable := false
  hidlGkVerify := fun _ _ _ => none
  ksGetKey := fun _ => .ok
  ksBeginOk := true
  ksFinish := fun _ => none
  gcmDecrypt := fun _ _ ct => List.replicate ct.length 5
  gcmTagOk := fun _ _ _ => true
  ceUnlock := fun _ _ => true
  cePrepare := fun _ => true
  handleOf := fun _ => "h"
  aliasOf := fun h => "USRSKEY_synthetic_password_" ++ h

/-- The claim C1 reading of the weaver slot: the host-endian i32
occupying the four bytes immediately after the version byte (file
offsets 1..4). -/
def claimWeaverSlot (bs : Bytes) : Int :=
  leInt32 (bs.getD 1 0) (bs.getD 2 0) (bs.getD 3 0) (bs.getD 4 0)

/-- An 8-byte weaver file, long enough that all of the source's reads
stay in bounds: version 1 followed by the big-endian slot 7 that the
upstream format stores at offsets 1..4, then NUL tail. -/
def weaverFileC1 : Bytes := [1, 0, 0, 0, 7, 0, 0, 0]

/-- File system holding only that weaver file. -/
def fsC1 : String → FileSt := fun p =>
  if p = "/data/system_de/0/spblob/h.weaver" then .content weaverFileC1 else .absent

/-- C1 counterexample: on the weaver file [1,0,0,0,7,0,0,0] the code
parses slot 7 (the host-endian int at offsets 4..7), while the slot the
claim describes (host-endian at offsets 1..4) is 117440512; the two
differ, refuting the claim at this input. -/
theorem C1_counterexample :
    (Get_Weaver_Data fsC1 "/data/system_de/0/spblob/" "h").1 = some ⟨1, 7⟩ ∧
    claimWeaverSlot weaverFileC1 = 117440512 ∧ (7 : Int) ≠ 117440512 := by
  refine ⟨by decide, by decide, by decide⟩

/-- C1 amended: for every readable .weaver file, byte 0 is the version
and the slot is the host-endian i32 at byte offsets 4..7 — the source
advances a pointer of int type by sizeof(unsigned char), skipping four
bytes instead of one. -/
theorem C1_amended_weaver_layout (fs : String → FileSt) (spblobPath handleStr : String)
    (bs : Bytes) (hc : fs (spblobPath ++ handleStr ++ ".weaver") = .content bs) :
    (Get_Weaver_Data fs spblobPath handleStr).1 =
      some ⟨bs.getD 0 0, leInt32 (bs.getD 4 0) (bs.getD 5 0) (bs.getD 6 0) (bs.getD 7 0)⟩ := by
  simp [Get_Weaver_Data, hc]

/-- C1 witness: the amended layout at the concrete weaver file. -/
theorem C1_amended_witness :
    (Get_Weaver_Data fsC1 "/data/system_de/0/spblob/" "h").1 =
      some ⟨weaverFileC1.getD 0 0,
        leInt32 (weaverFileC1.getD 4 0) (weaverFileC1.getD 5 0)
          (weaverFileC1.getD 6 0) (weaverFileC1.getD 7 0)⟩ :=
  C1_amended_weaver_layout fsC1 "/data/system_de/0/spblob/" "h" weaverFileC1 (by decide)

/-- The claim C5 token: the literal bytes "default-password" right-padded
with NUL bytes to exactly 32 bytes. -/
def pad32Claim (s : String) : Bytes :=
  strBytes s ++ List.replicate (32 - (strBytes s).length) 0

/-- A stack residue whose tail half is nonzero. -/
def residueC5 : Bytes := List.replicate 16 0 ++ List.replicate 16 170

/-- Environment whose uninitialized password-token buffer holds
residueC5. -/
def envC5 : Env := { env0 with stackResidue := residueC5 }

/-- C5 counterexample: with credential "!" the token step yields the
default-password bytes followed by the prior buffer contents; when those
sixteen trailing bytes are 0xAA the token is not the NUL-padded value
the claim describes. -/
theorem C5_counterexample :
    (tokenStep envC5 "/data/system_de/0/spblob/" "h" "!").1 =
      some (strBytes "default-password" ++ List.replicate 16 170, pwdInit) ∧
    strBytes "default-password" ++ List.replicate 16 170 ≠ pad32Claim "default-password" := by
  refine ⟨by decide, by decide⟩

/-- C5 amended: with credential "!" the password token is the 16 literal
bytes "default-password" followed by the last 16 bytes of the
uninitialized stack buffer's prior contents (NUL padding only when the
buffer happened to hold NUL bytes); for a 32-byte buffer the token is 32
bytes, its first 16 bytes are the literal, and its tail is the residue's
tail. -/
theorem C5_amended_default_token (e : Env) (spblobPath handleStr : String)
    (hlen : e.stackResidue.length = 32) :
    (tokenStep e spblobPath handleStr "!").1 =
      some (defaultPasswordToken e.stackResidue, pwdInit) ∧
    (defaultPasswordToken e.stackResidue).length = 32 ∧
    (defaultPasswordToken e.stackResidue).take 16 = strBytes "default-password" ∧
    (defaultPasswordToken e.stackResidue).drop 16 = e.stackResidue.drop 16 := by
  have hdp : (strBytes "default-password").length = 16 := by decide
  refine ⟨by simp [tokenStep], ?_, ?_, ?_⟩
  · simp [defaultPasswordToken, memcpyAt, hdp, hlen]
  · rw [defaultPasswordToken, memcpyAt]
    simp only [List.take_zero, List.nil_append, Nat.zero_add]
    rw [show (16 : Nat) = (strBytes "default-password").length from hdp.symm,
      List.take_left]
  · rw [defaultPasswordToken, memcpyAt]
    simp only [List.take_zero, List.nil_append, Nat.zero_add]
    rw [show (16 : Nat) = (strBytes "default-password").length from hdp.symm,
      List.drop_left]

/-- C5 witness: the amended facts at the concrete residue. -/
theorem C5_amended_witness :
    (tokenStep envC5 "/p/" "h" "!").1 =
      some (defaultPasswordToken envC5.stackResidue, pwdInit) ∧
    (defaultPasswordToken envC5.stackResidue).length = 32 ∧
    (defaultPasswordToken envC5.stackResidue).take 16 = strBytes "default-password" ∧
    (defaultPasswordToken envC5.stackResidue).drop 16 = envC5.stackResidue.drop 16 :=
  C5_amended_default_token envC5 "/p/" "h" (by decide)

/-- The spec's resolution strategy (claim C7): try the candidates in
order, the first readable one (the first with content) wins. -/
def specResolve (fs : String → FileSt) : List String → Option Bytes
| [] => none
| p :: rest =>
  match fs p with
  | .content d => some d
  | _ => specResolve fs rest

/-- File system holding a weaver artifact only under the zero-padded
name, plus nothing else. -/
def fsC7 : String → FileSt := fun p =>
  if p = "/data/system_de/0/spblob/0h.weaver" then .content [0, 5] else .absent

/-- C7 counterexample: a .weaver artifact present only under the
zero-padded name 0h.weaver is not found — Get_Weaver_Data fails and
Is_Weaver does not even see the weaver path — refuting the claim that
all four artifacts resolve through the zero-padded variants. -/
theorem C7_counterexample :
    fsC7 "/data/system_de/0/spblob/0h.weaver" = .content [0, 5] ∧
    (Get_Weaver_Data fsC7 "/data/system_de/0/spblob/" "h").1 = none ∧
    Is_Weaver fsC7 "/data/system_de/0/spblob/" "h" = false := by
  refine ⟨by decide, by decide, by decide⟩

/-- C7 amended: .pwd, .spblob and .secdis reads go through Get_Spblob_Data
and resolve to the first readable candidate among the plain, 0- and
00-padded names (provided an existing unpadded file is readable, since an
existing-but-unreadable unpadded file aborts without fallback); the
.weaver artifact is read only under its exact unpadded name and the
zero-padded variants are never consulted for it. -/
theorem C7_amended_resolution (fs : String → FileSt) (spblobPath handleStr suffix : String) :
    (fs (spblobPath ++ handleStr ++ suffix) ≠ .unreadable →
      (Get_Spblob_Data fs spblobPath handleStr suffix).1 =
        specResolve fs [spblobPath ++ handleStr ++ suffix,
          spblobPath ++ "0" ++ handleStr ++ suffix,
          spblobPath ++ "00" ++ handleStr ++ suffix]) ∧
    (fs (spblobPath ++ handleStr ++ ".weaver") = .absent →
      (Get_Weaver_Data fs spblobPath handleStr).1 = none ∧
      Is_Weaver fs spblobPath handleStr = false) := by
  constructor
  · intro hur
    unfold Get_Spblob_Data specResolve
    cases h0 : fs (spblobPath ++ handleStr ++ suffix) with
    | content d => simp [h0]
    | unreadable => exact absurd h0 hur
    | absent =>
      cases h1 : fs (spblobPath ++ "0" ++ handleStr ++ suffix) with
      | content d => simp [specResolve, h0, h1]
      | unreadable =>
        cases h2 : fs (spblobPath ++ "00" ++ handleStr ++ suffix) with
        | content d => simp [specResolve, h0, h1, h2]
        | unreadable => simp [specResolve, h0, h1, h2]
        | absent => simp [specResolve, h0, h1, h2]
      | absent =>
        cases h2 : fs (spblobPath ++ "00" ++ handleStr ++ suffix) with
        | content d => simp [specResolve, h0, h1, h2]
        | unreadable => simp [specResolve, h0, h1, h2]
        | absent => simp [specResolve, h0, h1, h2]
  · intro habs
    constructor
    · simp [Get_Weaver_Data, habs]
    · simp [Is_Weaver, habs]

/-- C7 witness: the amended resolution at the concrete file system,
covering both the generic reader (which does fall back for a .secdis
present only as 0h.secdis) and the weaver reader (which fails). -/
theorem C7_amended_witness :
    ((Get_Spblob_Data fsC7 "/data/system_de/0/spblob/" "h" ".secdis").1 =
      specResolve fsC7 ["/data/system_de/0/spblob/" ++ "h" ++ ".secdis",
        "/data/system_de/0/spblob/" ++ "0" ++ "h" ++ ".secdis",
        "/data/system_de/0/spblob/" ++ "00" ++ "h" ++ ".secdis"]) ∧
    ((Get_Weaver_Data fsC7 "/data/system_de/0/spblob/" "h").1 = none ∧
      Is_Weaver fsC7 "/data/system_de/0/spblob/" "h" = false) :=
  ⟨(C7_amended_resolution fsC7 "/data/system_de/0/spblob/" "h" ".secdis").1 (by decide),
   (C7_amended_resolution fsC7 "/data/system_de/0/spblob/" "h" ".secdis").2 (by decide)⟩

/-- C3: for every spblob whose version byte is not 2 or 3 (the legacy
version 1 included) or whose type byte is not 0, the unwrap fails on one
of the three blob-validation exits (the spec's BlobCorrupt class) and
returns no FBE secret. -/
theorem C3_bad_version_or_type (e : Env) (spblobPath handleStr : String) (userId : Nat)
    (applicationId : Bytes) (bs : Bytes)
    (hread : (Get_Spblob_Data e.fs spblobPath handleStr ".spblob").1 = some bs)
    (hlen : 2 ≤ bs.length)
    (hbad : ¬(bs.getD 0 0 = 2 ∨ bs.getD 0 0 = 3) ∨ bs.getD 1 0 ≠ 0) :
    ∃ err, (unwrapSyntheticPasswordBlob e spblobPath handleStr userId applicationId).1 =
      Except.error err ∧ err.isBlobCorrupt = true := by
  rcases hG : Get_Spblob_Data e.fs spblobPath handleStr ".spblob" with ⟨o, tr⟩
  rw [hG] at hread
  simp only at hread
  subst hread
  by_cases hv : bs.getD 0 0 ≠ 2 ∧ bs.getD 0 0 ≠ 1 ∧ bs.getD 0 0 ≠ 3
  · refine ⟨.unsupportedVersion, ?_, rfl⟩
    simp only [unwrapSyntheticPasswordBlob, hG]
    rw [if_pos hv]
  · by_cases ht : bs.getD 1 0 ≠ 0
    · refine ⟨.notPasswordBased, ?_, rfl⟩
      simp only [unwrapSyntheticPasswordBlob, hG]
      rw [if_neg hv, if_pos ht]
    · have h23 : ¬(bs.getD 0 0 = 2 ∨ bs.getD 0 0 = 3) := by
        rcases hbad with hb | hb
        · exact hb
        · exact absurd hb ht
      refine ⟨.legacyVersion, ?_, rfl⟩
      simp only [unwrapSyntheticPasswordBlob, hG]
      rw [if_neg hv, if_neg ht, if_neg h23]

/-- File system holding a corrupt spblob with version byte 5. -/
def fsC3 : String → FileSt := fun p =>
  if p = "/data/system_de/0/spblob/h.spblob" then .content [5, 0, 1, 2] else .absent

/-- Environment reading that corrupt spblob. -/
def envC3 : Env := { env0 with fs := fsC3 }

/-- C3 witness: the theorem at the concrete version-5 spblob. -/
theorem C3_witness :
    ∃ err, (unwrapSyntheticPasswordBlob envC3 "/data/system_de/0/spblob/" "h" 0 []).1 =
      Except.error err ∧ err.isBlobCorrupt = true :=
  C3_bad_version_or_type envC3 "/data/system_de/0/spblob/" "h" 0 [] [5, 0, 1, 2]
    (by decide) (by decide) (by decide)

/-- The synthetic password recovered by the inner AES-GCM decrypt: the
keystore envelope splits into a 12-byte iv and the tagged payload, the
stream decrypt runs under the first 32 bytes of the personalized
application id, and the last 16 bytes (the tag's width) are dropped. -/
def innerSyntheticPassword (e : Env) (applicationId keystoreResult : Bytes) : Bytes :=
  let key := (PersonalizedHashBinary e PERSONALISATION_APPLICATION_ID applicationId).take 32
  let pt := e.gcmDecrypt key (keystoreResult.take 12) (keystoreResult.drop 12)
  pt.take (pt.length - 16)

/-- C6: on a successful inner decrypt the unwrap returns, for spblob
version 2, the hex-encoded Personalize("fbe-key", synthetic_password),
and for version 3, PersonalizedHashSP800("fbe-key", "fbe-key-context",
synthetic_password). -/
theorem C6_fbe_secret_by_version (e : Env) (spblobPath handleStr : String) (userId : Nat)
    (applicationId : Bytes) (bs kr : Bytes)
    (hread : (Get_Spblob_Data e.fs spblobPath handleStr ".spblob").1 = some bs)
    (hver : bs.getD 0 0 = 2 ∨ bs.getD 0 0 = 3)
    (htype : bs.getD 1 0 = 0)
    (hkey : e.ksGetKey (e.aliasOf (e.handleOf userId)) = .ok)
    (hbegin : e.ksBeginOk = true)
    (hfinish : e.ksFinish (bs.drop 14) = some kr) :
    (unwrapSyntheticPasswordBlob e spblobPath handleStr userId applicationId).1 =
      Except.ok (if bs.getD 0 0 = 3 then
          PersonalizedHashSP800 e PERSONALIZATION_FBE_KEY PERSONALISATION_CONTEXT
            (innerSyntheticPassword e applicationId kr)
        else
          PersonalizedHash e PERSONALIZATION_FBE_KEY
            (innerSyntheticPassword e applicationId kr)) := by
  rcases hG : Get_Spblob_Data e.fs spblobPath handleStr ".spblob" with ⟨o, tr⟩
  rw [hG] at hread
  simp only at hread
  subst hread
  have hv : ¬(bs.getD 0 0 ≠ 2 ∧ bs.getD 0 0 ≠ 1 ∧ bs.getD 0 0 ≠ 3) := by
    rintro ⟨ha, _hb, hc⟩
    rcases hver with h | h
    · exact ha h
    · exact hc h
  have ht : ¬(bs.getD 1 0 ≠ 0) := fun hh => hh htype
  simp only [unwrapSyntheticPasswordBlob, hG]
  rw [if_neg hv, if_neg ht, if_pos hver, hkey]
  simp only [hbegin, Bool.not_true, Bool.false_eq_true, if_false, hfinish]
  by_cases h3 : bs.getD 0 0 = 3
  · rw [if_pos h3, if_pos h3]
    rfl
  · rw [if_neg h3, if_neg h3]
    rfl

/-- File system for a concrete successful v3 run. -/
def fsC6 : String → FileSt := fun p =>
  if p = "/data/system_de/0/spblob/h.spblob" then
    .content ([3, 0] ++ List.replicate 12 0 ++ List.replicate 16 4)
  else .absent

/-- Environment for that run: the keystore finish returns a 32-byte
envelope. -/
def envC6 : Env :=
  { env0 with fs := fsC6, ksFinish := fun _ => some (List.replicate 12 0 ++ List.replicate 20 1) }

/-- C6 witness: the theorem at the concrete v3 spblob. -/
theorem C6_witness :
    (unwrapSyntheticPasswordBlob envC6 "/data/system_de/0/spblob/" "h" 0
        (List.replicate 96 2)).1 =
      Except.ok (if ([3, 0] ++ List.replicate 12 0 ++ List.replicate 16 4 : Bytes).getD 0 0 = 3 then
          PersonalizedHashSP800 envC6 PERSONALIZATION_FBE_KEY PERSONALISATION_CONTEXT
            (innerSyntheticPassword envC6 (List.replicate 96 2)
              (List.replicate 12 0 ++ List.replicate 20 1))
        else
          PersonalizedHash envC6 PERSONALIZATION_FBE_KEY
            (innerSyntheticPassword envC6 (List.replicate 96 2)
              (List.replicate 12 0 ++ List.replicate 20 1))) :=
  C6_fbe_secret_by_version envC6 "/data/system_de/0/spblob/" "h" 0 (List.replicate 96 2)
    ([3, 0] ++ List.replicate 12 0 ++ List.replicate 16 4)
    (List.replicate 12 0 ++ List.replicate 20 1)
    (by decide) (by decide) (by decide) (by decide) (by decide) (by decide)

/-- File system for a full secdis-path run: a .secdis blob and a v2
spblob for user 0's handle. -/
def fsC2 : String → FileSt := fun p =>
  if p = "/data/system_de/0/spblob/h.secdis" then .content (List.replicate 16 3)
  else if p = "/data/system_de/0/spblob/h.spblob" then
    .content ([2, 0] ++ List.replicate 12 0 ++ List.replicate 16 4)
  else .absent

/-- Environment in which every step succeeds except the inner AES-GCM
authentication: the tag check reports failure on every input, and the
code discards that result. -/
def envC2 : Env :=
  { env0 with
    fs := fsC2,
    ksFinish := fun _ => some (List.replicate 12 0 ++ List.replicate 20 1),
    gcmTagOk := fun _ _ _ => false }

set_option maxRecDepth 8192 in
/-- C2: the inner AES-GCM authentication result is computed and
discarded — the source passes an uninitialized tag to
EVP_CTRL_GCM_SET_TAG and ignores the return value of
EVP_DecryptFinal_ex — so with the tag check failing on every input the
unlock still succeeds and still hands a (non-empty) FBE secret to the
CE-storage unlock, instead of failing with CryptoError. -/
theorem C2_tag_ignored :
    envC2.gcmTagOk = (fun _ _ _ => false) ∧
    (Decrypt_User_Synth_Pass envC2 0 "!").1 = true ∧
    (Decrypt_User_Synth_Pass envC2 0 "!").2.any Ev.isCeUnlock = true := by
  refine ⟨rfl, by decide, by decide⟩

/-- The CE-storage step only appends to the trace it is given. -/
theorem Decrypt_CE_storage_trace (e : Env) (uid : Nat) (s : String) (tr : List Ev) :
    ∃ t, (Decrypt_CE_storage e uid s tr).2 = tr ++ t := by
  unfold Decrypt_CE_storage
  by_cases h1 : e.ceUnlock uid s
  · by_cases h2 : e.cePrepare uid
    · exact ⟨[.ceUnlock uid s, .cePrepare uid], by simp [h1, h2]⟩
    · exact ⟨[.ceUnlock uid s, .cePrepare uid], by simp [h1, h2]⟩
  · exact ⟨[.ceUnlock uid s], by simp [h1]⟩

/-- The unwrap tail only appends to the trace it is given. -/
theorem finishUnwrap_trace (e : Env) (sp h : String) (uid : Nat) (appId : Bytes)
    (tr : List Ev) : ∃ t, (finishUnwrap e sp h uid appId tr).2 = tr ++ t := by
  unfold finishUnwrap
  rcases hU : unwrapSyntheticPasswordBlob e sp h uid appId with ⟨r, tu⟩
  cases r with
  | error err => exact ⟨tu, rfl⟩
  | ok secret =>
    by_cases hs : secret.length = 0
    · exact ⟨tu, by simp [hs]⟩
    · rcases Decrypt_CE_storage_trace e uid secret (tr ++ tu) with ⟨t, ht⟩
      exact ⟨tu ++ t, by simp [hs, ht]⟩

/-- C8 amended: on the weaver path the key-size query result is bound
and never compared to the 64-byte weaver key — the run calls verify for
any returned size, and two runs differing only in the returned key size
are identical. -/
theorem C8_no_key_size_check (e : Env) (uid : Nat) (pw : String) (tok : Bytes)
    (pwd : PwdData) (wbs : Bytes) (n m : Nat)
    (htok : (tokenStep e (spblobPathOf uid) (e.handleOf uid) pw).1 = some (tok, pwd))
    (hw : e.fs (spblobPathOf uid ++ e.handleOf uid ++ ".weaver") = .content wbs)
    (havail : e.weaverAvailable = true) :
    (e.weaverKeySize = some n →
      (Decrypt_User_Synth_Pass e uid pw).2.any Ev.isWeaverVerify = true) ∧
    Decrypt_User_Synth_Pass { e with weaverKeySize := some n } uid pw =
      Decrypt_User_Synth_Pass { e with weaverKeySize := some m } uid pw := by
  constructor
  · intro hks
    rcases hT : tokenStep e (spblobPathOf uid) (e.handleOf uid) pw with ⟨o, tr⟩
    rw [hT] at htok
    simp only at htok
    subst htok
    have hIW : Is_Weaver e.fs (spblobPathOf uid) (e.handleOf uid) = true := by
      simp [Is_Weaver, hw]
    have hGW : Get_Weaver_Data e.fs (spblobPathOf uid) (e.handleOf uid) =
        (some ⟨wbs.getD 0 0, leInt32 (wbs.getD 4 0) (wbs.getD 5 0) (wbs.getD 6 0)
          (wbs.getD 7 0)⟩,
         [.fileRead (spblobPathOf uid ++ e.handleOf uid ++ ".weaver")]) := by
      simp [Get_Weaver_Data, hw]
    simp only [Decrypt_User_Synth_Pass, hT, hIW, if_true, hGW, havail, Bool.not_true,
      Bool.false_eq_true, if_false, hks]
    rcases hV : e.weaverVerify
        (leInt32 (wbs.getD 4 0) (wbs.getD 5 0) (wbs.getD 6 0) (wbs.getD 7 0))
        (PersonalizedHashBinary e PERSONALISATION_WEAVER_KEY
          (tok.take PASSWORD_TOKEN_SIZE)) with _ | payload
    · simp [Ev.isWeaverVerify]
    · rcases finishUnwrap_trace e (spblobPathOf uid) (e.handleOf uid) uid
        (tok.take PASSWORD_TOKEN_SIZE ++
          (PersonalizedHashBinary e PERSONALISATION_WEAVER_PASSWORD payload).take
            SHA512_DIGEST_LENGTH)
        (tr ++ [.fileRead (spblobPathOf uid ++ e.handleOf uid ++ ".weaver")] ++
          [.weaverGetKeySize] ++
          [.weaverVerify (leInt32 (wbs.getD 4 0) (wbs.getD 5 0) (wbs.getD 6 0)
            (wbs.getD 7 0))
            (PersonalizedHashBinary e PERSONALISATION_WEAVER_KEY
              (tok.take PASSWORD_TOKEN_SIZE))]) with ⟨t, ht⟩
      rw [ht]
      simp [Ev.isWeaverVerify]
  · rfl

/-- File system holding a weaver file for user 0's handle. -/
def fsC8 : String → FileSt := fun p =>
  if p = "/data/system_de/0/spblob/h.weaver" then .content [1, 0, 0, 0, 7, 0, 0, 0]
  else .absent

/-- Environment whose weaver service reports key size 5, although the
personalized weaver key is 64 bytes. -/
def envC8 : Env :=
  { env0 with
    fs := fsC8,
    weaverAvailable := true,
    weaverKeySize := some 5,
    weaverVerify := fun _ _ => some (List.replicate 64 6) }

set_option maxRecDepth 8192 in
/-- C8 counterexample: the weaver service returns key size 5 while the
personalized weaver key is 64 bytes long, yet verify is still called —
the source fetches the key size but never compares it to the key
length. -/
theorem C8_counterexample :
    envC8.weaverKeySize = some 5 ∧
    (PersonalizedHashBinary envC8 PERSONALISATION_WEAVER_KEY
      ((defaultPasswordToken envC8.stackResidue).take PASSWORD_TOKEN_SIZE)).length =
      SHA512_DIGEST_LENGTH ∧
    (5 : Nat) ≠ SHA512_DIGEST_LENGTH ∧
    (Decrypt_User_Synth_Pass envC8 0 "!").2.any Ev.isWeaverVerify = true := by
  refine ⟨rfl, by decide, by decide, by decide⟩

set_option maxRecDepth 8192 in
/-- C8 witness: the amended facts at the concrete environment. -/
theorem C8_witness :
    (envC8.weaverKeySize = some 5 →
      (Decrypt_User_Synth_Pass envC8 0 "!").2.any Ev.isWeaverVerify = true) ∧
    Decrypt_User_Synth_Pass { envC8 with weaverKeySize := some 5 } 0 "!" =
      Decrypt_User_Synth_Pass { envC8 with weaverKeySize := some 64 } 0 "!" :=
  C8_no_key_size_check envC8 0 "!" (defaultPasswordToken envC8.stackResidue) pwdInit
    [1, 0, 0, 0, 7, 0, 0, 0] 5 64 (by decide) (by decide) rfl

/-- Blob-store reads only log file reads, never keystore operations. -/
theorem Get_Spblob_Data_no_keystore (fs : String → FileSt) (sp h suf : String) :
    (Get_Spblob_Data fs sp h suf).2.any Ev.isKeystore = false := by
  unfold Get_Spblob_Data
  rcases h0 : fs (sp ++ h ++ suf) with _ | _ | d
  · rcases h1 : fs (sp ++ "0" ++ h ++ suf) with _ | _ | d1
    · rcases h2 : fs (sp ++ "00" ++ h ++ suf) with _ | _ | d2
      · simp [h0, h1, h2, Ev.isKeystore]
      · simp [h0, h1, h2, Ev.isKeystore]
      · simp [h0, h1, h2, Ev.isKeystore]
    · rcases h2 : fs (sp ++ "00" ++ h ++ suf) with _ | _ | d2
      · simp [h0, h1, h2, Ev.isKeystore]
      · simp [h0, h1, h2, Ev.isKeystore]
      · simp [h0, h1, h2, Ev.isKeystore]
    · simp [h0, h1, Ev.isKeystore]
  · simp [h0, Ev.isKeystore]
  · simp [h0, Ev.isKeystore]

/-- The password-data parse returns the blob store's trace unchanged. -/
theorem Get_Password_Data_trace (fs : String → FileSt) (sp h : String) :
    (Get_Password_Data fs sp h).2 = (Get_Spblob_Data fs sp h ".pwd").2 := by
  unfold Get_Password_Data
  rcases hG : Get_Spblob_Data fs sp h ".pwd" with ⟨o, tr⟩
  cases o with
  | none => rfl
  | some d =>
    dsimp only
    split
    · rfl
    · rfl

/-- The token step never logs a keystore operation. -/
theorem tokenStep_no_keystore (e : Env) (sp h pw : String) :
    (tokenStep e sp h pw).2.any Ev.isKeystore = false := by
  unfold tokenStep
  by_cases hpw : pw ≠ "!"
  · rw [if_pos hpw]
    rcases hP : Get_Password_Data e.fs sp h with ⟨o, tr⟩
    have htr : tr.any Ev.isKeystore = false := by
      have h1 := Get_Password_Data_trace e.fs sp h
      rw [hP] at h1
      simp only at h1
      rw [h1]
      exact Get_Spblob_Data_no_keystore e.fs sp h ".pwd"
    cases o with
    | none => simpa using htr
    | some pwd =>
      rcases hQ : Get_Password_Token e pwd pw with _ | token
      · simp only [hQ]
        simpa using htr
      · simp only [hQ]
        simpa using htr
  · rw [if_neg hpw]
    simp [Ev.isKeystore]

/-- C4 amended: on the secdis path with a non-default credential and the
AIDL gatekeeper transport, a non-OK non-retry verify status makes the
unlock fail before any keystore operation is begun (on the legacy HIDL
transport the error does not abort the flow and the keystore operation
is still attempted, as the counterexample shows). -/
theorem C4_aidl_error_aborts (e : Env) (uid : Nat) (pw : String)
    (hpw : pw ≠ "!")
    (haidl : e.aidlGkDeclared = true)
    (hwabs : e.fs (spblobPathOf uid ++ e.handleOf uid ++ ".weaver") = .absent)
    (hgk : ∀ hdl tok, (e.aidlGkVerify (fakeUid uid) hdl tok).statusCode < AIDL_STATUS_OK ∧
      (e.aidlGkVerify (fakeUid uid) hdl tok).statusCode ≠ AIDL_ERROR_RETRY_TIMEOUT) :
    (Decrypt_User_Synth_Pass e uid pw).1 = false ∧
    (Decrypt_User_Synth_Pass e uid pw).2.any Ev.isKeystore = false := by
  have hIW : Is_Weaver e.fs (spblobPathOf uid) (e.handleOf uid) = false := by
    simp [Is_Weaver, hwabs]
  rcases hT : tokenStep e (spblobPathOf uid) (e.handleOf uid) pw with ⟨o, tr⟩
  have htrT : tr.any Ev.isKeystore = false := by
    have h1 := tokenStep_no_keystore e (spblobPathOf uid) (e.handleOf uid) pw
    rw [hT] at h1
    exact h1
  cases o with
  | none =>
    simp only [Decrypt_User_Synth_Pass, hT]
    exact ⟨trivial, htrT⟩
  | some tp =>
    rcases tp with ⟨tok, pwd⟩
    rcases hS : Get_Secdis e.fs (spblobPathOf uid) (e.handleOf uid) with ⟨os, ts⟩
    have htrS : ts.any Ev.isKeystore = false := by
      have h1 := Get_Spblob_Data_no_keystore e.fs (spblobPathOf uid) (e.handleOf uid) ".secdis"
      rw [show Get_Spblob_Data e.fs (spblobPathOf uid) (e.handleOf uid) ".secdis" =
        Get_Secdis e.fs (spblobPathOf uid) (e.handleOf uid) from rfl, hS] at h1
      exact h1
    simp only [Decrypt_User_Synth_Pass, hT, hIW, Bool.false_eq_true, if_false, hS]
    cases os with
    | none =>
      simp only
      refine ⟨by trivial, ?_⟩
      simp [List.any_append, htrT, htrS]
    | some secdis =>
      simp only [if_pos hpw]
      unfold gatekeeperStep
      rw [if_pos haidl]
      by_cases hh : pwd.handleLen ≤ 0
      · rw [if_pos hh]
        refine ⟨by trivial, ?_⟩
        simp [List.any_append, htrT, htrS]
      · rw [if_neg hh]
        have hlt := (hgk pwd.passwordHandle
          ((PersonalizedHashBinary e PERSONALIZATION_USER_GK_AUTH
            (tok.take PASSWORD_TOKEN_SIZE)).take SHA512_DIGEST_LENGTH)).1
        have hne := (hgk pwd.passwordHandle
          ((PersonalizedHashBinary e PERSONALIZATION_USER_GK_AUTH
            (tok.take PASSWORD_TOKEN_SIZE)).take SHA512_DIGEST_LENGTH)).2
        rw [if_neg (by exact fun hge => absurd hlt (not_lt.mpr hge)), if_neg hne]
        refine ⟨by trivial, ?_⟩
        simp [List.any_append, htrT, htrS, Ev.isKeystore]

/-- File system for a secdis-path run with a parseable .pwd (type 3,
4-byte salt, 2-byte password handle), a .secdis blob and a v2 spblob. -/
def fsC4 : String → FileSt := fun p =>
  if p = "/data/system_de/0/spblob/h.pwd" then
    .content [0, 0, 0, 3, 1, 1, 1, 0, 0, 0, 4, 9, 9, 9, 9, 0, 0, 0, 2, 8, 8]
  else if p = "/data/system_de/0/spblob/h.secdis" then .content (List.replicate 16 3)
  else if p = "/data/system_de/0/spblob/h.spblob" then
    .content ([2, 0] ++ List.replicate 12 0 ++ List.replicate 16 4)
  else .absent

/-- Environment with only the legacy HIDL gatekeeper available, whose
verify reports status -1: not OK, not a retry. -/
def envC4 : Env :=
  { env0 with
    fs := fsC4,
    hidlGkAvailable := true,
    hidlGkVerify := fun _ _ _ => some ⟨-1, 0, []⟩ }

set_option maxRecDepth 8192 in
/-- C4 counterexample: with the HIDL gatekeeper reporting the credential
incorrect (status -1: non-OK, non-retry) the flow continues and a
keystore operation is begun, refuting the claim that no keystore
operation is begun. -/
theorem C4_counterexample :
    envC4.hidlGkVerify = (fun _ _ _ => some ⟨-1, 0, []⟩) ∧
    ((-1 : Int) < AIDL_STATUS_OK ∧ (-1 : Int) ≠ AIDL_ERROR_RETRY_TIMEOUT) ∧
    (Decrypt_User_Synth_Pass envC4 0 "1234").2.any Ev.isKeystore = true := by
  refine ⟨rfl, by decide, by decide⟩

/-- Same environment with the AIDL gatekeeper declared instead; its
verify also reports status -1. -/
def envC4w : Env := { envC4 with aidlGkDeclared := true }

set_option maxRecDepth 8192 in
/-- C4 witness: the amended theorem at the concrete AIDL environment. -/
theorem C4_witness :
    (Decrypt_User_Synth_Pass envC4w 0 "1234").1 = false ∧
    (Decrypt_User_Synth_Pass envC4w 0 "1234").2.any Ev.isKeystore = false :=
  C4_aidl_error_aborts envC4w 0 "1234" (by decide) rfl (by decide)
    (fun _ _ => ⟨show (-1 : Int) < AIDL_STATUS_OK by decide,
      show (-1 : Int) ≠ AIDL_ERROR_RETRY_TIMEOUT by decide⟩)

/-- The file system with the three .secdis candidate names of one
(user, handle) pair replaced by another file system g: two runs over
fs and over this override differ exactly in the .secdis contents. -/
def overrideSecdis (fs : String → FileSt) (sp h : String) (g : String → FileSt) :
    String → FileSt :=
  fun p =>
    if p = sp ++ h ++ ".secdis" ∨ p = sp ++ "0" ++ h ++ ".secdis" ∨
        p = sp ++ "00" ++ h ++ ".secdis" then g p
    else fs p

/-- The override leaves non-secdis paths untouched. -/
theorem overrideSecdis_ne (fs : String → FileSt) (sp h : String) (g : String → FileSt)
    (p : String) (h1 : p ≠ sp ++ h ++ ".secdis") (h2 : p ≠ sp ++ "0" ++ h ++ ".secdis")
    (h3 : p ≠ sp ++ "00" ++ h ++ ".secdis") :
    overrideSecdis fs sp h g p = fs p := by
  unfold overrideSecdis
  rw [if_neg]
  rintro (hc | hc | hc)
  · exact h1 hc
  · exact h2 hc
  · exact h3 hc

theorem override_at_pwd (fs : String → FileSt) (sp h : String) (g : String → FileSt) :
    overrideSecdis fs sp h g (sp ++ h ++ ".pwd") = fs (sp ++ h ++ ".pwd") := by
  apply overrideSecdis_ne <;>
  · apply string_ne_of_length
    simp only [String.length_append, len_dot_pwd, len_dot_secdis, len_zero_str,
      len_zerozero_str]
    omega

theorem override_at_pwd0 (fs : String → FileSt) (sp h : String) (g : String → FileSt) :
    overrideSecdis fs sp h g (sp ++ "0" ++ h ++ ".pwd") = fs (sp ++ "0" ++ h ++ ".pwd") := by
  apply overrideSecdis_ne <;>
  · apply string_ne_of_length
    simp only [String.length_append, len_dot_pwd, len_dot_secdis, len_zero_str,
      len_zerozero_str]
    omega

theorem override_at_pwd00 (fs : String → FileSt) (sp h : String) (g : String → FileSt) :
    overrideSecdis fs sp h g (sp ++ "00" ++ h ++ ".pwd") = fs (sp ++ "00" ++ h ++ ".pwd") := by
  apply overrideSecdis_ne <;>
  · apply string_ne_of_length
    simp only [String.length_append, len_dot_pwd, len_dot_secdis, len_zero_str,
      len_zerozero_str]
    omega

theorem override_at_spblob (fs : String → FileSt) (sp h : String) (g : String → FileSt) :
    overrideSecdis fs sp h g (sp ++ h ++ ".spblob") = fs (sp ++ h ++ ".spblob") := by
  apply overrideSecdis_ne
  · exact string_append_right_ne (sp ++ h) (by decide)
  · apply string_ne_of_length
    simp only [String.length_append, len_dot_spblob, len_dot_secdis, len_zero_str,
      len_zerozero_str]
    omega
  · apply string_ne_of_length
    simp only [String.length_append, len_dot_spblob, len_dot_secdis, len_zero_str,
      len_zerozero_str]
    omega

theorem override_at_spblob0 (fs : String → FileSt) (sp h : String) (g : String → FileSt) :
    overrideSecdis fs sp h g (sp ++ "0" ++ h ++ ".spblob") =
      fs (sp ++ "0" ++ h ++ ".spblob") := by
  apply overrideSecdis_ne
  · apply string_ne_of_length
    simp only [String.length_append, len_dot_spblob, len_dot_secdis, len_zero_str,
      len_zerozero_str]
    omega
  · exact string_append_right_ne (sp ++ "0" ++ h) (by decide)
  · apply string_ne_of_length
    simp only [String.length_append, len_dot_spblob, len_dot_secdis, len_zero_str,
      len_zerozero_str]
    omega

theorem override_at_spblob00 (fs : String → FileSt) (sp h : String) (g : String → FileSt) :
    overrideSecdis fs sp h g (sp ++ "00" ++ h ++ ".spblob") =
      fs (sp ++ "00" ++ h ++ ".spblob") := by
  apply overrideSecdis_ne
  · apply string_ne_of_length
    simp only [String.length_append, len_dot_spblob, len_dot_secdis, len_zero_str,
      len_zerozero_str]
    omega
  · apply string_ne_of_length
    simp only [String.length_append, len_dot_spblob, len_dot_secdis, len_zero_str,
      len_zerozero_str]
    omega
  · exact string_append_right_ne (sp ++ "00" ++ h) (by decide)

theorem override_at_weaver (fs : String → FileSt) (sp h : String) (g : String → FileSt) :
    overrideSecdis fs sp h g (sp ++ h ++ ".weaver") = fs (sp ++ h ++ ".weaver") := by
  apply overrideSecdis_ne
  · exact string_append_right_ne (sp ++ h) (by decide)
  · apply string_ne_of_length
    simp only [String.length_append, len_dot_weaver, len_dot_secdis, len_zero_str,
      len_zerozero_str]
    omega
  · apply string_ne_of_length
    simp only [String.length_append, len_dot_weaver, len_dot_secdis, len_zero_str,
      len_zerozero_str]
    omega

/-- Blob-store reads agree when the file systems agree on the three
candidate paths. -/
theorem Get_Spblob_Data_congr (fs1 fs2 : String → FileSt) (sp h suf : String)
    (h0 : fs2 (sp ++ h ++ suf) = fs1 (sp ++ h ++ suf))
    (h1 : fs2 (sp ++ "0" ++ h ++ suf) = fs1 (sp ++ "0" ++ h ++ suf))
    (h2 : fs2 (sp ++ "00" ++ h ++ suf) = fs1 (sp ++ "00" ++ h ++ suf)) :
    Get_Spblob_Data fs2 sp h suf = Get_Spblob_Data fs1 sp h suf := by
  simp only [Get_Spblob_Data]
  rw [h0, h1, h2]

/-- The .pwd read is unaffected by the .secdis override. -/
theorem Get_Spblob_Data_override_pwd (fs : String → FileSt) (sp h : String)
    (g : String → FileSt) :
    Get_Spblob_Data (overrideSecdis fs sp h g) sp h ".pwd" = Get_Spblob_Data fs sp h ".pwd" :=
  Get_Spblob_Data_congr fs (overrideSecdis fs sp h g) sp h ".pwd"
    (override_at_pwd fs sp h g) (override_at_pwd0 fs sp h g) (override_at_pwd00 fs sp h g)

/-- The .spblob read is unaffected by the .secdis override. -/
theorem Get_Spblob_Data_override_spblob (fs : String → FileSt) (sp h : String)
    (g : String → FileSt) :
    Get_Spblob_Data (overrideSecdis fs sp h g) sp h ".spblob" =
      Get_Spblob_Data fs sp h ".spblob" :=
  Get_Spblob_Data_congr fs (overrideSecdis fs sp h g) sp h ".spblob"
    (override_at_spblob fs sp h g) (override_at_spblob0 fs sp h g)
    (override_at_spblob00 fs sp h g)

/-- The weaver read is unaffected by the .secdis override. -/
theorem Get_Weaver_Data_override (fs : String → FileSt) (sp h : String)
    (g : String → FileSt) :
    Get_Weaver_Data (overrideSecdis fs sp h g) sp h = Get_Weaver_Data fs sp h := by
  simp only [Get_Weaver_Data]
  rw [override_at_weaver]

/-- The weaver-presence stat is unaffected by the .secdis override. -/
theorem Is_Weaver_override (fs : String → FileSt) (sp h : String) (g : String → FileSt) :
    Is_Weaver (overrideSecdis fs sp h g) sp h = Is_Weaver fs sp h := by
  simp only [Is_Weaver]
  rw [override_at_weaver]

/-- The password-data parse is unaffected by the .secdis override. -/
theorem Get_Password_Data_override (fs : String → FileSt) (sp h : String)
    (g : String → FileSt) :
    Get_Password_Data (overrideSecdis fs sp h g) sp h = Get_Password_Data fs sp h := by
  unfold Get_Password_Data
  rw [Get_Spblob_Data_override_pwd]

/-- The token step is unaffected by the .secdis override. -/
theorem tokenStep_override (e : Env) (sp h : String) (g : String → FileSt) (pw : String) :
    tokenStep { e with fs := overrideSecdis e.fs sp h g } sp h pw = tokenStep e sp h pw := by
  simp only [tokenStep]
  rw [Get_Password_Data_override]
  rfl

/-- The unwrap is unaffected by the .secdis override. -/
theorem unwrap_override (e : Env) (sp h : String) (g : String → FileSt) (uid : Nat)
    (appId : Bytes) :
    unwrapSyntheticPasswordBlob { e with fs := overrideSecdis e.fs sp h g } sp h uid appId =
      unwrapSyntheticPasswordBlob e sp h uid appId := by
  simp only [unwrapSyntheticPasswordBlob]
  rw [Get_Spblob_Data_override_spblob]
  rfl

/-- The unwrap tail is unaffected by the .secdis override. -/
theorem finishUnwrap_override (e : Env) (sp h : String) (g : String → FileSt) (uid : Nat)
    (appId : Bytes) (tr : List Ev) :
    finishUnwrap { e with fs := overrideSecdis e.fs sp h g } sp h uid appId tr =
      finishUnwrap e sp h uid appId tr := by
  simp only [finishUnwrap]
  rw [unwrap_override]
  rfl

/-- A present (stat-visible) weaver file makes Is_Weaver true. -/
theorem Is_Weaver_true (fs : String → FileSt) (sp h : String)
    (hne : fs (sp ++ h ++ ".weaver") ≠ .absent) : Is_Weaver fs sp h = true := by
  unfold Is_Weaver
  rcases hf : fs (sp ++ h ++ ".weaver") with _ | _ | d
  · exact absurd hf hne
  · rfl
  · rfl

/-- An absent weaver file makes Is_Weaver false. -/
theorem Is_Weaver_false (fs : String → FileSt) (sp h : String)
    (habs : fs (sp ++ h ++ ".weaver") = .absent) : Is_Weaver fs sp h = false := by
  unfold Is_Weaver
  rw [habs]

/-- C9: path determinism.  When the .weaver file for the handle is
present, the run is unchanged by replacing the contents of the three
.secdis candidate files (the secdis file is never read); when the
.weaver file is absent, the run is unchanged by any change to weaver
service availability, key size, or verify behaviour (the weaver service
is never contacted). -/
theorem C9_path_determinism (e : Env) (uid : Nat) (pw : String) (g : String → FileSt)
    (a : Bool) (k : Option Nat) (v : Int → Bytes → Option Bytes) :
    (e.fs (spblobPathOf uid ++ e.handleOf uid ++ ".weaver") ≠ .absent →
      Decrypt_User_Synth_Pass
        { e with fs := overrideSecdis e.fs (spblobPathOf uid) (e.handleOf uid) g } uid pw =
      Decrypt_User_Synth_Pass e uid pw) ∧
    (e.fs (spblobPathOf uid ++ e.handleOf uid ++ ".weaver") = .absent →
      Decrypt_User_Synth_Pass
        { e with weaverAvailable := a, weaverKeySize := k, weaverVerify := v } uid pw =
      Decrypt_User_Synth_Pass e uid pw) := by
  constructor
  · intro hne
    have hIW := Is_Weaver_true e.fs (spblobPathOf uid) (e.handleOf uid) hne
    simp only [Decrypt_User_Synth_Pass]
    rw [tokenStep_override]
    rcases hT : tokenStep e (spblobPathOf uid) (e.handleOf uid) pw with ⟨o, tr⟩
    cases o with
    | none => rfl
    | some tp =>
      rcases tp with ⟨tok, pwd⟩
      rw [Is_Weaver_override]
      simp only [hIW, if_true]
      rw [Get_Weaver_Data_override]
      rcases hW : Get_Weaver_Data e.fs (spblobPathOf uid) (e.handleOf uid) with ⟨ow, tw⟩
      cases ow with
      | none => rfl
      | some wd =>
        dsimp only
        simp only [finishUnwrap_override]
        rfl
  · intro habs
    have hIW := Is_Weaver_false e.fs (spblobPathOf uid) (e.handleOf uid) habs
    simp only [Decrypt_User_Synth_Pass]
    rw [show tokenStep { e with weaverAvailable := a, weaverKeySize := k, weaverVerify := v }
      (spblobPathOf uid) (e.handleOf uid) pw =
      tokenStep e (spblobPathOf uid) (e.handleOf uid) pw from rfl]
    rcases hT : tokenStep e (spblobPathOf uid) (e.handleOf uid) pw with ⟨o, tr⟩
    cases o with
    | none => rfl
    | some tp =>
      rcases tp with ⟨tok, pwd⟩
      simp only [hIW, Bool.false_eq_true, if_false]
      rfl

set_option maxRecDepth 8192 in
/-- C9 witness: both determinism parts at concrete environments — a
weaver-present run is unchanged by rewriting every .secdis candidate,
and a weaver-absent run is unchanged by altering the weaver service. -/
theorem C9_witness :
    (Decrypt_User_Synth_Pass
      { envC8 with
        fs := (overrideSecdis envC8.fs (spblobPathOf 0) (envC8.handleOf 0)
          (fun _ => FileSt.content [1, 2])) } 0 "!" =
      Decrypt_User_Synth_Pass envC8 0 "!") ∧
    (Decrypt_User_Synth_Pass
      { envC2 with
        weaverAvailable := true,
        weaverKeySize := some 7,
        weaverVerify := fun _ _ => some [] } 0 "!" =
      Decrypt_User_Synth_Pass envC2 0 "!") :=
  ⟨(C9_path_determinism envC8 0 "!" (fun _ => .content [1, 2]) true none
      (fun _ _ => none)).1 (by decide),
   (C9_path_determinism envC2 0 "!" (fun _ => .absent) true (some 7)
      (fun _ _ => some [])).2 (by decide)⟩

/-- With a non-default credential, a known password type, and the user-0
spblob directory absent, Decrypt_User ends in the legacy gatekeeper
key-file flow (whatever the target user's own directories hold). -/
theorem Decrypt_User_legacy_flow (e : Env) (uid : Nat) (pw : String)
    (hpw : ¬ pw = "!") (hle : ¬ uid > 9999) (hpt : (Get_Password_Type e uid).1 ≠ 0)
    (hd : e.dirStat "/data/system_de/0/spblob" = false) :
    (Decrypt_User e uid pw).2.1 = DecryptFlow.legacy := by
  simp only [Decrypt_User]
  rw [if_neg hle]
  rw [if_neg (show ¬((Get_Password_Type e uid).1 = 0 ∧ ¬pw = "!") from
    fun hc => hpt hc.1)]
  rw [if_neg hpw]
  simp only [hd, Bool.false_eq_true, if_false]
  rcases hf : e.fs (Get_Password_Type e uid).2 with _ | _ | hb
  · simp [hf]
  · simp [hf]
  · simp only [hf]
    by_cases hgk : e.hidlGkAvailable
    · simp only [hgk, Bool.not_true, Bool.false_eq_true, if_false]
      rcases hv : e.hidlGkVerify uid hb (strBytes pw) with _ | rsp
      · simp [hv]
      · simp [hv]
    · simp only [Bool.not_eq_true] at hgk
      simp [hgk]

/-- With a non-default credential, a known password type, and the user-0
spblob directory present, Decrypt_User takes the synthetic-password
method. -/
theorem Decrypt_User_synth_flow (e : Env) (uid : Nat) (pw : String)
    (hpw : ¬ pw = "!") (hle : ¬ uid > 9999) (hpt : (Get_Password_Type e uid).1 ≠ 0)
    (hd : e.dirStat "/data/system_de/0/spblob" = true) :
    (Decrypt_User e uid pw).2.1 = DecryptFlow.synth := by
  simp only [Decrypt_User]
  rw [if_neg hle]
  rw [if_neg (show ¬((Get_Password_Type e uid).1 = 0 ∧ ¬pw = "!") from
    fun hc => hpt hc.1)]
  rw [if_neg hpw]
  simp only [hd, if_true]

/-- C10 amended: for a non-default credential and a target user id of at
most 9999, whenever the password-type probe for the target user returns
nonzero, Decrypt_User selects the synthetic-password method exactly when
/data/system_de/0/spblob (the user-0 directory, whatever the target
user) exists; when it does not exist the legacy gatekeeper key-file flow
is taken even if the target user has an spblob directory of their own;
when the probe returns zero Decrypt_User returns false without selecting
a method; and any user id above 9999 is rejected immediately. -/
theorem C10_method_selection (e : Env) (uid : Nat) (pw : String) :
    (pw ≠ "!" → uid ≤ 9999 → (Get_Password_Type e uid).1 ≠ 0 →
      (((Decrypt_User e uid pw).2.1 = DecryptFlow.synth) ↔
        e.dirStat "/data/system_de/0/spblob" = true)) ∧
    (pw ≠ "!" → uid ≤ 9999 → (Get_Password_Type e uid).1 ≠ 0 →
      e.dirStat "/data/system_de/0/spblob" = false →
      (Decrypt_User e uid pw).2.1 = DecryptFlow.legacy) ∧
    (uid > 9999 → Decrypt_User e uid pw = (false, DecryptFlow.rejected, [])) := by
  refine ⟨?_, ?_, ?_⟩
  · intro hpw hle hpt
    by_cases hd : e.dirStat "/data/system_de/0/spblob" = true
    · exact ⟨fun _ => hd,
        fun _ => Decrypt_User_synth_flow e uid pw hpw (by omega) hpt hd⟩
    · simp only [Bool.not_eq_true] at hd
      have hleg := Decrypt_User_legacy_flow e uid pw hpw (by omega) hpt hd
      constructor
      · intro hsyn
        rw [hleg] at hsyn
        cases hsyn
      · intro habs
        rw [habs] at hd
        cases hd
  · intro hpw hle hpt hd
    exact Decrypt_User_legacy_flow e uid pw hpw (by omega) hpt hd
  · intro hgt
    simp [Decrypt_User, hgt]

/-- Environment whose only existing directory is the user-0 spblob
directory as Decrypt_User stats it, with an empty file system: the
password-type probe for user 5 finds nothing. -/
def e10 : Env := { env0 with dirStat := fun p => p == "/data/system_de/0/spblob" }

/-- C10 counterexample: /data/system_de/0/spblob exists, the credential
is non-default, yet Decrypt_User does not select the synthetic-password
method — the password-type probe for target user 5 returns 0 and the run
is rejected first — refuting the claimed equivalence. -/
theorem C10_counterexample :
    e10.dirStat "/data/system_de/0/spblob" = true ∧
    Decrypt_User e10 5 "x" = (false, DecryptFlow.rejected, []) ∧
    (Decrypt_User e10 5 "x").2.1 ≠ DecryptFlow.synth := by
  refine ⟨by decide, by decide, by decide⟩

/-- Environment where both the stat of /data/system_de/0/spblob and the
probe of the target user's spblob directory succeed, with fsC4's .pwd. -/
def eC10 : Env := { envC4 with dirStat := fun _ => true }

/-- Environment where only the target user's spblob directory (with its
trailing slash, as Get_Password_Type stats it) exists, and the
user-0 directory that Decrypt_User stats does not. -/
def eC10b : Env := { envC4 with dirStat := fun p => p == "/data/system_de/0/spblob/" }

set_option maxRecDepth 8192 in
/-- C10 witness: the amended selection at concrete environments — the
equivalence with the directory present, the legacy fallback with it
absent while the target user's own directory exists, and the immediate
rejection above 9999. -/
theorem C10_witness :
    (((Decrypt_User eC10 0 "1234").2.1 = DecryptFlow.synth) ↔
      eC10.dirStat "/data/system_de/0/spblob" = true) ∧
    ((Decrypt_User eC10b 0 "1234").2.1 = DecryptFlow.legacy) ∧
    (Decrypt_User eC10 10000 "1234" = (false, DecryptFlow.rejected, [])) :=
  ⟨(C10_method_selection eC10 0 "1234").1 (by decide) (by decide) (by decide),
   (C10_method_selection eC10b 0 "1234").2.1 (by decide) (by decide) (by decide) (by decide),
   (C10_method_selection eC10 10000 "1234").2.2 (by decide)⟩
